import Mathlib

/-!
# schedulerapi: HTTP handlers of the job scheduler (`schedulerapi/Handlers.go`)

A shallow embedding of `createJobHandler`, `getJobHandler` and
`getJobResultHandler`.  A handler is a pure function from what it reads
(the request and the values its collaborators return) to the ordered list of
calls it makes on the response writer and on its collaborators.  The
log calls (`log.Infof`, `log.Printf`) do not influence control flow and are
left out.
-/

namespace schedulerapi

/-! ## Data model -/

/-- A Go `error` value returned by a collaborator. -/
structure GoError where
  msg : String
deriving DecidableEq, Repr

/-- Modelled from the spec: the `Job` struct (the uniform job status), whose
declaration is outside `Handlers.go`.  Only the fields the handlers read are
kept; the counters are Go `int`s. -/
structure Job where
  ID : String
  Completions : Int
  Succeeded : Int
  Parts : Int
  StorageContainer : String
  StorageBlobPrefix : String
deriving DecidableEq, Repr

/-- The months of Go's `time.Month` (`January` = 1, ..., `December` = 12). -/
inductive Month where
  | January | February | March | April | May | June
  | July | August | September | October | November | December
deriving DecidableEq, Repr

/-- The number of a month, as `int(m)` in Go. -/
def Month.num : Month → Nat
  | .January => 1 | .February => 2 | .March => 3 | .April => 4
  | .May => 5 | .June => 6 | .July => 7 | .August => 8
  | .September => 9 | .October => 10 | .November => 11 | .December => 12

/-- The part of a `time.Time` that the layout `2006-01` reads. -/
structure Time where
  year : Int
  month : Month
deriving DecidableEq, Repr

/-- One call made by a handler, in the order of the source. -/
inductive Call where
  | WriteHeader (code : Nat)
  | Write (body : String)
  | HeaderSet (key value : String)
  | HeaderAdd (key value : String)
  | responseWithError (err : GoError)
  | responseWithApplicationError (code : Nat) (message : String)
  | createJobInputFiles (container blobNamePrefix : String) (itemsPerJob : Int)
  | createBatchJob (jobID container blobNamePrefix : String) (locationsCount : Int)
  | createKubernetesJob (jobID container blobNamePrefix : String) (locationsCount : Int)
  | createScheduler
  | SearchJobs (jobID labelName labelValue : String)
  | Encode (jobStatus : Job)
  | writeAzureBlobs (container blobPrefix : String) (part : Int)
deriving DecidableEq, Repr

/-! ## Library functions used by the handlers -/

/-- The constants of `net/http` the handlers use. -/
def StatusOK : Nat := 200
def StatusBadRequest : Nat := 400
def StatusNotFound : Nat := 404

/-- The verb `%d` of `fmt.Sprintf` on an `int`: decimal, `-` for negatives. -/
def fmtInt (n : Int) : String := toString n

/-- Left padding with `0` up to `width` characters. -/
def zeroPad (width : Nat) (ds : List Char) : List Char :=
  List.replicate (width - ds.length) '0' ++ ds

/-- Go's `time.appendInt`: the decimal digits of `x`, zero-padded to at
least `width` digits, after a `-` when `x` is negative. -/
def appendInt (x : Int) (width : Nat) : List Char :=
  (if x < 0 then ['-'] else []) ++ zeroPad width (Nat.toDigits 10 x.natAbs)

/-- The rendering `t.Format("2006-01")`: four-digit year, `-`, two-digit month. -/
def Time.Format200601 (t : Time) : String :=
  String.mk (appendInt t.year 4 ++ '-' :: appendInt (t.month.num : Int) 2)

/-- The value of a run of ASCII digits. -/
def digitsValue (ds : List Char) : Nat :=
  ds.foldl (fun n ch => n * 10 + (ch.toNat - '0'.toNat)) 0

/-- The width of Go's `int` on the 64-bit targets the service is built for. -/
def intSize : Nat := 64

/-- Go's `strconv.Atoi`: an optional sign, then at least one ASCII digit and
nothing else, with a value that fits in `int`; `none` stands for a non-nil
error (syntax or range). -/
def Atoi (s : String) : Option Int :=
  let (neg, ds) : Bool × List Char :=
    match s.data with
    | '-' :: rest => (true, rest)
    | '+' :: rest => (false, rest)
    | cs => (false, cs)
  if ds.isEmpty then none
  else if !ds.all Char.isDigit then none
  else
    let n : Int := if neg then -(digitsValue ds : Int) else (digitsValue ds : Int)
    if n < -(2 : Int) ^ (intSize - 1) ∨ (2 : Int) ^ (intSize - 1) - 1 < n then none
    else some n

/-- The method `url.Values.Get`: the first value of the key, or `""` when the
key is absent. -/
def queryGet (v : Option String) : String := v.getD ""

/-! ## Handlers -/

/-- What `createJobHandler` reads: the request, the clock, the random
suffix, the flags, and what the collaborators (declared outside
`Handlers.go`) return for given arguments. -/
structure CreateEnv where
  /-- the first value of the query key `batch`, if any -/
  batch : Option String
  /-- the reading `time.Now()` -/
  now : Time
  /-- the result of `randomString()` -/
  randomString : String
  /-- the flag `*containerName` -/
  containerName : String
  /-- the flag `*itemsPerJob` -/
  itemsPerJob : Int
  createJobInputFiles : String → String → Int → Int × Option GoError
  createBatchJob : String → String → String → Int → Option GoError
  createKubernetesJob : String → String → String → Int → Option GoError

/-- The value `jobID` of `createJobHandler`: `Sprintf("%s-%s", ...)`. -/
def CreateEnv.jobID (env : CreateEnv) : String :=
  env.now.Format200601 ++ "-" ++ env.randomString

/-- The value `blobNamePrefix` of `createJobHandler`: `Sprintf("%s/%s", ...)`. -/
def CreateEnv.blobNamePrefix (env : CreateEnv) : String :=
  env.now.Format200601 ++ "/" ++ env.randomString

/-- The value `useBatch` of `createJobHandler`. -/
def CreateEnv.useBatch (env : CreateEnv) : Bool :=
  let batchFlag := queryGet env.batch
  decide (batchFlag.length > 0) && batchFlag == "1"

/-- The handler `createJobHandler`: splits the upload, then creates the job on
one backend. -/
def createJobHandler (env : CreateEnv) : List Call :=
  let useBatch := env.useBatch
  let jobID := env.jobID
  let blobNamePrefix := env.blobNamePrefix
  let (locationsCount, err) :=
    env.createJobInputFiles env.containerName blobNamePrefix env.itemsPerJob
  Call.createJobInputFiles env.containerName blobNamePrefix env.itemsPerJob ::
  match err with
  | some e => [Call.responseWithError e]
  | none =>
    if locationsCount < 1 then
      [Call.responseWithApplicationError StatusBadRequest "Input file generated 0 jobs"]
    else if useBatch then
      Call.createBatchJob jobID env.containerName blobNamePrefix locationsCount ::
      match env.createBatchJob jobID env.containerName blobNamePrefix locationsCount with
      | some e => [Call.responseWithError e]
      | none => [Call.WriteHeader 202, Call.Write jobID]
    else
      Call.createKubernetesJob jobID env.containerName blobNamePrefix locationsCount ::
      match env.createKubernetesJob jobID env.containerName blobNamePrefix locationsCount with
      | some e => [Call.responseWithError e]
      | none => [Call.WriteHeader 202, Call.Write jobID]

/-- What `getJobHandler` and `getJobResultHandler` read.  `Item` is the
backend's job type (`batchv1.Job`); the label constants and the collaborators
are declared outside `Handlers.go`. -/
structure GetEnv (Item : Type) where
  /-- the route variable `mux.Vars(r)["id"]` -/
  id : Option String
  /-- the first value of the query key `part`, if any -/
  part : Option String
  CreatedByLabelName : String
  CreatedByLabelValue : String
  /-- the error of `createScheduler()`, if any -/
  createScheduler : Option GoError
  SearchJobs : String → String → String → Except GoError (List Item)
  NewJob : Item → Job
  /-- the error of `json.NewEncoder(w).Encode`, if any -/
  Encode : Job → Option GoError
  /-- the error of `writeAzureBlobs`, if any -/
  writeAzureBlobs : String → String → Int → Option GoError

/-- The handler `getJobHandler`: the status of one job. -/
def getJobHandler {Item : Type} (env : GetEnv Item) : List Call :=
  match env.id with
  | none => [Call.responseWithApplicationError StatusBadRequest "Missing job id"]
  | some jobID =>
    Call.createScheduler ::
    match env.createScheduler with
    | some err => [Call.responseWithError err]
    | none =>
      Call.SearchJobs jobID env.CreatedByLabelName env.CreatedByLabelValue ::
      match env.SearchJobs jobID env.CreatedByLabelName env.CreatedByLabelValue with
      | .error err => [Call.responseWithError err]
      | .ok items =>
        match items with
        | [] => [Call.responseWithApplicationError StatusNotFound "Job not found"]
        | mainJob :: _ =>
          let jobStatus := env.NewJob mainJob
          Call.HeaderSet "Content-Type" "application/json" ::
          Call.Encode jobStatus ::
          match env.Encode jobStatus with
          | some err => [Call.responseWithError err]
          | none => []

/-- The value `part` of `getJobResultHandler` after lines 202-209: `0`, or
the parsed query value when it is non-empty and `Atoi` gives no error. -/
def requestedPart (partParam : Option String) : Int :=
  let partQueryParam := queryGet partParam
  if partQueryParam.length > 0 then
    match Atoi partQueryParam with
    | some n => n
    | none => 0
  else 0

/-- The handler `getJobResultHandler`: one part of the result of a job. -/
def getJobResultHandler {Item : Type} (env : GetEnv Item) : List Call :=
  match env.id with
  | none => [Call.responseWithApplicationError StatusBadRequest "Missing job id"]
  | some jobID =>
    Call.createScheduler ::
    match env.createScheduler with
    | some err => [Call.responseWithError err]
    | none =>
      Call.SearchJobs jobID env.CreatedByLabelName env.CreatedByLabelValue ::
      match env.SearchJobs jobID env.CreatedByLabelName env.CreatedByLabelValue with
      | .error err => [Call.responseWithError err]
      | .ok items =>
        match items with
        | [] => [Call.responseWithApplicationError StatusNotFound "Job not found"]
        | item :: _ =>
          let job := env.NewJob item
          if job.Completions ≠ job.Succeeded then
            [Call.responseWithApplicationError StatusNotFound
              ("Job has not yet completed: " ++ fmtInt job.Succeeded ++ " of " ++
                fmtInt job.Completions ++ " completed")]
          else
            let part := requestedPart env.part
            if part > job.Parts then
              [Call.responseWithApplicationError StatusBadRequest
                ("Part has invalid value. Job has " ++ fmtInt job.Parts ++
                  " parts, requested for part " ++ fmtInt part)]
            else
              Call.WriteHeader StatusOK ::
              Call.HeaderAdd "Content-Type" "application/json" ::
              Call.writeAzureBlobs job.StorageContainer job.StorageBlobPrefix part ::
              match env.writeAzureBlobs job.StorageContainer job.StorageBlobPrefix part with
              | some err => [Call.responseWithError err]
              | none => []

/-! ## The response writer -/

/-- One method call on an `http.ResponseWriter`. -/
inductive WriterOp where
  | WriteHeader (code : Nat)
  | Write (body : String)
  | HeaderSet (key value : String)
  | HeaderAdd (key value : String)
deriving DecidableEq, Repr

/-- The state of an `http.ResponseWriter`: the status line sent to the client
(`none` until the header is written) and the body written so far. -/
structure ResponseWriter where
  status : Option Nat
  body : List String
deriving DecidableEq, Repr

/-- The fresh response writer a handler receives. -/
def ResponseWriter.fresh : ResponseWriter := ⟨none, []⟩

/-- One method call on the writer: the first `WriteHeader` fixes the status
and later ones are ignored; a `Write` before any `WriteHeader` sends 200. -/
def ResponseWriter.step (w : ResponseWriter) : WriterOp → ResponseWriter
  | .WriteHeader code =>
    match w.status with
    | none => { w with status := some code }
    | some _ => w
  | .Write body =>
    match w.status with
    | none => { status := some StatusOK, body := w.body ++ [body] }
    | some _ => { w with body := w.body ++ [body] }
  | .HeaderSet _ _ => w
  | .HeaderAdd _ _ => w

/-- A run of method calls on the writer. -/
def ResponseWriter.run (w : ResponseWriter) (ops : List WriterOp) : ResponseWriter :=
  ops.foldl ResponseWriter.step w

/-- The helpers that receive the writer `w` and are declared outside
`Handlers.go`, each as the method calls it makes on `w`. -/
structure Responders where
  responseWithError : GoError → List WriterOp
  responseWithApplicationError : Nat → String → List WriterOp
  Encode : Job → List WriterOp
  writeAzureBlobs : String → String → Int → List WriterOp

/-- The method calls on the writer that one call of a handler stands for. -/
def Responders.ops (rs : Responders) : Call → List WriterOp
  | .WriteHeader code => [.WriteHeader code]
  | .Write body => [.Write body]
  | .HeaderSet k v => [.HeaderSet k v]
  | .HeaderAdd k v => [.HeaderAdd k v]
  | .responseWithError err => rs.responseWithError err
  | .responseWithApplicationError code message => rs.responseWithApplicationError code message
  | .Encode jobStatus => rs.Encode jobStatus
  | .writeAzureBlobs c p part => rs.writeAzureBlobs c p part
  | _ => []

/-- The response the client receives after the calls of a handler. -/
def clientResponse (rs : Responders) (calls : List Call) : ResponseWriter :=
  ResponseWriter.fresh.run (calls.flatMap rs.ops)

/-- A call that creates a job on a backend. -/
def Call.isCreation : Call → Bool
  | .createBatchJob _ _ _ _ => true
  | .createKubernetesJob _ _ _ _ => true
  | _ => false

/-! ## Sample requests -/

/-- A job status with the given counters, stored under `jobs/2024-05/abc`. -/
def sampleJob (succeeded completions parts : Int) : Job :=
  { ID := "2024-05-abc", Completions := completions, Succeeded := succeeded,
    Parts := parts, StorageContainer := "jobs", StorageBlobPrefix := "2024-05/abc" }

/-- A request for job `2024-05-abc` whose search finds the given items (the
backend job type is instantiated by `Job`, with `NewJob` the identity). -/
def sampleGetEnv (items : List Job) (part : Option String) (readErr : Option GoError) :
    GetEnv Job :=
  { id := some "2024-05-abc", part := part,
    CreatedByLabelName := "createdBy", CreatedByLabelValue := "aksscheduler",
    createScheduler := none, SearchJobs := fun _ _ _ => .ok items,
    NewJob := id, Encode := fun _ => none, writeAzureBlobs := fun _ _ _ => readErr }

/-- A submission in May 2024 with suffix `abc`, whose splitter reports
`locationsCount` and whose backends report `batchErr` and `k8sErr`. -/
def sampleCreateEnv (batch : Option String) (locationsCount : Int)
    (batchErr k8sErr : Option GoError) : CreateEnv :=
  { batch := batch, now := ⟨2024, .May⟩, randomString := "abc",
    containerName := "jobs", itemsPerJob := 100,
    createJobInputFiles := fun _ _ _ => (locationsCount, none),
    createBatchJob := fun _ _ _ _ => batchErr,
    createKubernetesJob := fun _ _ _ _ => k8sErr }

/-! ## Auxiliary facts -/

theorem notYet_ne_notFound (a b : String) :
    "Job has not yet completed: " ++ a ++ " of " ++ b ++ " completed" ≠ "Job not found" := by
  intro h
  have h4 := congrArg (fun s : String => s.data.take 5) h
  simp [String.data_append] at h4

/-- The calls of `getJobResultHandler` in a request that finds a job. -/
theorem getJobResultHandler_found {Item : Type} (env : GetEnv Item) (jobID : String)
    (item : Item) (rest : List Item)
    (hid : env.id = some jobID) (hsched : env.createScheduler = none)
    (hsearch : env.SearchJobs jobID env.CreatedByLabelName env.CreatedByLabelValue
      = .ok (item :: rest)) :
    getJobResultHandler env =
      Call.createScheduler ::
      Call.SearchJobs jobID env.CreatedByLabelName env.CreatedByLabelValue ::
      (if (env.NewJob item).Completions ≠ (env.NewJob item).Succeeded then
        [Call.responseWithApplicationError StatusNotFound
          ("Job has not yet completed: " ++ fmtInt (env.NewJob item).Succeeded ++ " of " ++
            fmtInt (env.NewJob item).Completions ++ " completed")]
      else if requestedPart env.part > (env.NewJob item).Parts then
        [Call.responseWithApplicationError StatusBadRequest
          ("Part has invalid value. Job has " ++ fmtInt (env.NewJob item).Parts ++
            " parts, requested for part " ++ fmtInt (requestedPart env.part))]
      else
        Call.WriteHeader StatusOK ::
        Call.HeaderAdd "Content-Type" "application/json" ::
        Call.writeAzureBlobs (env.NewJob item).StorageContainer
          (env.NewJob item).StorageBlobPrefix (requestedPart env.part) ::
        match env.writeAzureBlobs (env.NewJob item).StorageContainer
          (env.NewJob item).StorageBlobPrefix (requestedPart env.part) with
        | some err => [Call.responseWithError err]
        | none => []) := by
  simp only [getJobResultHandler, hid, hsched, hsearch]

/-! ## C1: the completion gate of `getJobResultHandler` -/

/-- C1: for every job status found by the search and every `part` value, the
result handler answers with the 404 "Job has not yet completed: s of c
completed" error exactly when completions differ from succeeded; in that case
the calls end with that error and `writeAzureBlobs` is never called. -/
theorem getJobResultHandler_not_complete_iff {Item : Type} (env : GetEnv Item)
    (jobID : String) (item : Item) (rest : List Item)
    (hid : env.id = some jobID) (hsched : env.createScheduler = none)
    (hsearch : env.SearchJobs jobID env.CreatedByLabelName env.CreatedByLabelValue
      = .ok (item :: rest)) :
    (Call.responseWithApplicationError 404
        ("Job has not yet completed: " ++ fmtInt (env.NewJob item).Succeeded ++ " of " ++
          fmtInt (env.NewJob item).Completions ++ " completed") ∈ getJobResultHandler env
      ↔ (env.NewJob item).Completions ≠ (env.NewJob item).Succeeded) ∧
    ((env.NewJob item).Completions ≠ (env.NewJob item).Succeeded →
      getJobResultHandler env =
        [Call.createScheduler,
         Call.SearchJobs jobID env.CreatedByLabelName env.CreatedByLabelValue,
         Call.responseWithApplicationError 404
          ("Job has not yet completed: " ++ fmtInt (env.NewJob item).Succeeded ++ " of " ++
            fmtInt (env.NewJob item).Completions ++ " completed")] ∧
      ∀ c p n, Call.writeAzureBlobs c p n ∉ getJobResultHandler env) := by
  rw [getJobResultHandler_found env jobID item rest hid hsched hsearch]
  by_cases hc : (env.NewJob item).Completions = (env.NewJob item).Succeeded
  · simp only [hc, ne_eq, not_true_eq_false, if_false, false_implies, and_true, iff_false]
    split_ifs <;> [simp [StatusBadRequest]; (cases env.writeAzureBlobs _ _ _ <;> simp)]
  · simp [hc, StatusNotFound]

/-- C1 at succeeded = 0, completions = 3, parts = 3, part = 2, and the gate
passed at completions = succeeded = 0. -/
theorem getJobResultHandler_not_complete_iff_witness :
    getJobResultHandler (sampleGetEnv [sampleJob 0 3 3] (some "2") none) =
      [Call.createScheduler, Call.SearchJobs "2024-05-abc" "createdBy" "aksscheduler",
       Call.responseWithApplicationError 404 "Job has not yet completed: 0 of 3 completed"] ∧
    Call.responseWithApplicationError 404 "Job has not yet completed: 0 of 0 completed" ∉
      getJobResultHandler (sampleGetEnv [sampleJob 0 0 3] (some "2") none) :=
  ⟨((getJobResultHandler_not_complete_iff (sampleGetEnv [sampleJob 0 3 3] (some "2") none)
      "2024-05-abc" (sampleJob 0 3 3) [] rfl rfl rfl).2 (by decide)).1,
   fun h => ((getJobResultHandler_not_complete_iff
      (sampleGetEnv [sampleJob 0 0 3] (some "2") none)
      "2024-05-abc" (sampleJob 0 0 3) [] rfl rfl rfl).1.1 h) rfl⟩

/-! ## C2 and C4: the part range check of `getJobResultHandler` -/

/-- C2: evaluation of the handler on a completed job with 3 parts: the
requested parts 3 and -1, both outside `[0, 3)`, are not rejected; the storage
reader is called with them. -/
theorem getJobResultHandler_part_outside_range_served :
    getJobResultHandler (sampleGetEnv [sampleJob 3 3 3] (some "3") none) =
      [Call.createScheduler, Call.SearchJobs "2024-05-abc" "createdBy" "aksscheduler",
       Call.WriteHeader 200, Call.HeaderAdd "Content-Type" "application/json",
       Call.writeAzureBlobs "jobs" "2024-05/abc" 3] ∧
    getJobResultHandler (sampleGetEnv [sampleJob 3 3 3] (some "-1") none) =
      [Call.createScheduler, Call.SearchJobs "2024-05-abc" "createdBy" "aksscheduler",
       Call.WriteHeader 200, Call.HeaderAdd "Content-Type" "application/json",
       Call.writeAzureBlobs "jobs" "2024-05/abc" (-1)] := by
  constructor <;> decide

/-- C4: for every completed job, the result handler answers with the 400
"Part has invalid value. Job has P parts, requested for part p" error exactly
when p > P; for every p <= P (p = P included) no application error is
produced and `writeAzureBlobs` is called, after `WriteHeader(200)`, with the
job's storage container, its blob prefix and the same p. -/
theorem getJobResultHandler_part_check {Item : Type} (env : GetEnv Item)
    (jobID : String) (item : Item) (rest : List Item)
    (hid : env.id = some jobID) (hsched : env.createScheduler = none)
    (hsearch : env.SearchJobs jobID env.CreatedByLabelName env.CreatedByLabelValue
      = .ok (item :: rest))
    (hdone : (env.NewJob item).Completions = (env.NewJob item).Succeeded) :
    (Call.responseWithApplicationError 400
        ("Part has invalid value. Job has " ++ fmtInt (env.NewJob item).Parts ++
          " parts, requested for part " ++ fmtInt (requestedPart env.part))
        ∈ getJobResultHandler env
      ↔ requestedPart env.part > (env.NewJob item).Parts) ∧
    (requestedPart env.part > (env.NewJob item).Parts →
      getJobResultHandler env =
        [Call.createScheduler,
         Call.SearchJobs jobID env.CreatedByLabelName env.CreatedByLabelValue,
         Call.responseWithApplicationError 400
          ("Part has invalid value. Job has " ++ fmtInt (env.NewJob item).Parts ++
            " parts, requested for part " ++ fmtInt (requestedPart env.part))]) ∧
    (requestedPart env.part ≤ (env.NewJob item).Parts →
      (∀ code message,
        Call.responseWithApplicationError code message ∉ getJobResultHandler env) ∧
      getJobResultHandler env =
        [Call.createScheduler,
         Call.SearchJobs jobID env.CreatedByLabelName env.CreatedByLabelValue,
         Call.WriteHeader 200,
         Call.HeaderAdd "Content-Type" "application/json",
         Call.writeAzureBlobs (env.NewJob item).StorageContainer
           (env.NewJob item).StorageBlobPrefix (requestedPart env.part)] ++
        (match env.writeAzureBlobs (env.NewJob item).StorageContainer
            (env.NewJob item).StorageBlobPrefix (requestedPart env.part) with
          | some err => [Call.responseWithError err]
          | none => [])) := by
  rw [getJobResultHandler_found env jobID item rest hid hsched hsearch]
  by_cases hp : requestedPart env.part > (env.NewJob item).Parts
  · have hnle : ¬ requestedPart env.part ≤ (env.NewJob item).Parts := not_le.mpr hp
    simp [hdone, hp, hnle, StatusBadRequest]
  · have hle : requestedPart env.part ≤ (env.NewJob item).Parts := not_lt.mp hp
    simp only [hdone, ne_eq, not_true_eq_false, if_false, hp, hle, StatusOK,
      false_implies, true_implies, iff_false, true_and]
    refine ⟨?_, ?_, ?_⟩
    · cases env.writeAzureBlobs _ _ _ <;> simp
    · intro code message
      cases env.writeAzureBlobs _ _ _ <;> simp
    · cases env.writeAzureBlobs _ _ _ <;> simp

/-- C4 on a completed job with 3 parts: part 4 is rejected, part 3 is served. -/
theorem getJobResultHandler_part_check_witness :
    getJobResultHandler (sampleGetEnv [sampleJob 3 3 3] (some "4") none) =
      [Call.createScheduler, Call.SearchJobs "2024-05-abc" "createdBy" "aksscheduler",
       Call.responseWithApplicationError 400
        "Part has invalid value. Job has 3 parts, requested for part 4"] ∧
    getJobResultHandler (sampleGetEnv [sampleJob 3 3 3] (some "3") none) =
      [Call.createScheduler, Call.SearchJobs "2024-05-abc" "createdBy" "aksscheduler",
       Call.WriteHeader 200, Call.HeaderAdd "Content-Type" "application/json",
       Call.writeAzureBlobs "jobs" "2024-05/abc" 3] :=
  ⟨(getJobResultHandler_part_check (sampleGetEnv [sampleJob 3 3 3] (some "4") none)
      "2024-05-abc" (sampleJob 3 3 3) [] rfl rfl rfl rfl).2.1 (by decide),
   ((getJobResultHandler_part_check (sampleGetEnv [sampleJob 3 3 3] (some "3") none)
      "2024-05-abc" (sampleJob 3 3 3) [] rfl rfl rfl rfl).2.2 (by decide)).2⟩

/-! ## C3, C5, C6: `createJobHandler` -/

/-- The value `useBatch` is true exactly for the query value `"1"`. -/
theorem useBatch_iff (env : CreateEnv) : env.useBatch = true ↔ env.batch = some "1" := by
  unfold CreateEnv.useBatch queryGet
  cases hb : env.batch with
  | none => simp
  | some v =>
    simp only [Option.getD_some, Bool.and_eq_true, decide_eq_true_eq, beq_iff_eq,
      Option.some.injEq]
    constructor
    · exact fun h => h.2
    · rintro rfl
      exact ⟨by decide, rfl⟩

/-- The calls of `createJobHandler` after a split without error. -/
theorem createJobHandler_split (env : CreateEnv) (n : Int)
    (hsplit : env.createJobInputFiles env.containerName env.blobNamePrefix env.itemsPerJob
      = (n, none)) :
    createJobHandler env =
      Call.createJobInputFiles env.containerName env.blobNamePrefix env.itemsPerJob ::
      (if n < 1 then
        [Call.responseWithApplicationError StatusBadRequest "Input file generated 0 jobs"]
      else if env.useBatch then
        Call.createBatchJob env.jobID env.containerName env.blobNamePrefix n ::
        match env.createBatchJob env.jobID env.containerName env.blobNamePrefix n with
        | some e => [Call.responseWithError e]
        | none => [Call.WriteHeader 202, Call.Write env.jobID]
      else
        Call.createKubernetesJob env.jobID env.containerName env.blobNamePrefix n ::
        match env.createKubernetesJob env.jobID env.containerName env.blobNamePrefix n with
        | some e => [Call.responseWithError e]
        | none => [Call.WriteHeader 202, Call.Write env.jobID]) := by
  simp only [createJobHandler, hsplit]

/-- The calls of `createJobHandler` after a split with an error. -/
theorem createJobHandler_split_error (env : CreateEnv) (n : Int) (e : GoError)
    (hsplit : env.createJobInputFiles env.containerName env.blobNamePrefix env.itemsPerJob
      = (n, some e)) :
    createJobHandler env =
      [Call.createJobInputFiles env.containerName env.blobNamePrefix env.itemsPerJob,
       Call.responseWithError e] := by
  simp only [createJobHandler, hsplit]

/-- C3: when the split succeeds with `locationsCount < 1`, the response is the
application error 400 "Input file generated 0 jobs", no 202 is written and
no backend creation call is made, whatever the `batch` value. -/
theorem createJobHandler_zero_locations (env : CreateEnv) (n : Int)
    (hsplit : env.createJobInputFiles env.containerName env.blobNamePrefix env.itemsPerJob
      = (n, none))
    (hn : n < 1) :
    createJobHandler env =
      [Call.createJobInputFiles env.containerName env.blobNamePrefix env.itemsPerJob,
       Call.responseWithApplicationError 400 "Input file generated 0 jobs"] ∧
    Call.WriteHeader 202 ∉ createJobHandler env ∧
    (∀ j c p k, Call.createBatchJob j c p k ∉ createJobHandler env) ∧
    (∀ j c p k, Call.createKubernetesJob j c p k ∉ createJobHandler env) := by
  rw [createJobHandler_split env n hsplit]
  simp [hn, StatusBadRequest]

/-- C3 on an empty upload, with and without the `batch` flag. -/
theorem createJobHandler_zero_locations_witness :
    createJobHandler (sampleCreateEnv (some "1") 0 none none) =
      [Call.createJobInputFiles "jobs" "2024-05/abc" 100,
       Call.responseWithApplicationError 400 "Input file generated 0 jobs"] ∧
    createJobHandler (sampleCreateEnv none 0 none none) =
      [Call.createJobInputFiles "jobs" "2024-05/abc" 100,
       Call.responseWithApplicationError 400 "Input file generated 0 jobs"] :=
  ⟨(createJobHandler_zero_locations (sampleCreateEnv (some "1") 0 none none) 0 rfl
      (by decide)).1,
   (createJobHandler_zero_locations (sampleCreateEnv none 0 none none) 0 rfl
      (by decide)).1⟩

/-- C5: `createJobHandler` writes 202 if and only if the split returned no
error, `locationsCount >= 1` and the selected backend creation call returned
no error, and then the client receives status 202 with the jobID as body.
When the creation call returns an error, that error is handed unchanged to
`responseWithError`, exactly one creation call is made and no 202 is
written. -/
theorem createJobHandler_accepted_iff (env : CreateEnv) (n : Int) (err : Option GoError)
    (hsplit : env.createJobInputFiles env.containerName env.blobNamePrefix env.itemsPerJob
      = (n, err)) :
    (Call.WriteHeader 202 ∈ createJobHandler env ↔
      err = none ∧ 1 ≤ n ∧
      (if env.useBatch then
        env.createBatchJob env.jobID env.containerName env.blobNamePrefix n
       else env.createKubernetesJob env.jobID env.containerName env.blobNamePrefix n)
        = none) ∧
    (Call.WriteHeader 202 ∈ createJobHandler env →
      createJobHandler env =
        [Call.createJobInputFiles env.containerName env.blobNamePrefix env.itemsPerJob,
         if env.useBatch then
           Call.createBatchJob env.jobID env.containerName env.blobNamePrefix n
         else Call.createKubernetesJob env.jobID env.containerName env.blobNamePrefix n,
         Call.WriteHeader 202, Call.Write env.jobID] ∧
      ∀ rs : Responders,
        clientResponse rs (createJobHandler env) = ⟨some 202, [env.jobID]⟩) ∧
    (∀ e : GoError, err = none → 1 ≤ n →
      (if env.useBatch then
        env.createBatchJob env.jobID env.containerName env.blobNamePrefix n
       else env.createKubernetesJob env.jobID env.containerName env.blobNamePrefix n)
        = some e →
      createJobHandler env =
        [Call.createJobInputFiles env.containerName env.blobNamePrefix env.itemsPerJob,
         if env.useBatch then
           Call.createBatchJob env.jobID env.containerName env.blobNamePrefix n
         else Call.createKubernetesJob env.jobID env.containerName env.blobNamePrefix n,
         Call.responseWithError e] ∧
      ((createJobHandler env).filter Call.isCreation).length = 1 ∧
      Call.WriteHeader 202 ∉ createJobHandler env) := by
  cases err with
  | some e0 =>
    rw [createJobHandler_split_error env n e0 hsplit]
    simp
  | none =>
    rw [createJobHandler_split env n hsplit]
    by_cases hn : n < 1
    · have hn1 : ¬ 1 ≤ n := not_le.mpr hn
      simp [hn, hn1, StatusBadRequest]
    · have hn1 : 1 ≤ n := not_lt.mp hn
      by_cases hb : env.useBatch = true
      · cases hc : env.createBatchJob env.jobID env.containerName env.blobNamePrefix n <;>
          simp [hn, hn1, hb, hc, Call.isCreation, clientResponse, Responders.ops,
            ResponseWriter.run, ResponseWriter.step, ResponseWriter.fresh]
      · cases hc : env.createKubernetesJob env.jobID env.containerName env.blobNamePrefix n <;>
          simp [hn, hn1, hb, hc, Call.isCreation, clientResponse, Responders.ops,
            ResponseWriter.run, ResponseWriter.step, ResponseWriter.fresh]

/-- C5 on a submission with 3 locations: accepted on the cluster backend, and
refused with the backend's own error on the batch backend. -/
theorem createJobHandler_accepted_iff_witness :
    createJobHandler (sampleCreateEnv none 3 none none) =
      [Call.createJobInputFiles "jobs" "2024-05/abc" 100,
       Call.createKubernetesJob "2024-05-abc" "jobs" "2024-05/abc" 3,
       Call.WriteHeader 202, Call.Write "2024-05-abc"] ∧
    createJobHandler (sampleCreateEnv (some "1") 3 (some ⟨"quota"⟩) none) =
      [Call.createJobInputFiles "jobs" "2024-05/abc" 100,
       Call.createBatchJob "2024-05-abc" "jobs" "2024-05/abc" 3,
       Call.responseWithError ⟨"quota"⟩] :=
  ⟨((createJobHandler_accepted_iff (sampleCreateEnv none 3 none none) 3 none rfl).2.1
      (by decide)).1,
   ((createJobHandler_accepted_iff (sampleCreateEnv (some "1") 3 (some ⟨"quota"⟩) none)
      3 none rfl).2.2 ⟨"quota"⟩ rfl (by decide) rfl).1⟩

/-- C6: after a split with `locationsCount >= 1`, the handler makes exactly
one backend creation call: `createBatchJob` when the `batch` query value is
exactly `"1"`, `createKubernetesJob` for every other value; the call receives
the jobID, the container name, the blob name prefix given to the splitter and
the `locationsCount` the splitter returned. -/
theorem createJobHandler_one_creation (env : CreateEnv) (n : Int)
    (hsplit : env.createJobInputFiles env.containerName env.blobNamePrefix env.itemsPerJob
      = (n, none))
    (hn : 1 ≤ n) :
    (createJobHandler env).head? =
      some (Call.createJobInputFiles env.containerName env.blobNamePrefix env.itemsPerJob) ∧
    (createJobHandler env).filter Call.isCreation =
      [if env.batch = some "1" then
         Call.createBatchJob env.jobID env.containerName env.blobNamePrefix n
       else Call.createKubernetesJob env.jobID env.containerName env.blobNamePrefix n] := by
  have hn1 : ¬ n < 1 := not_lt.mpr hn
  rw [createJobHandler_split env n hsplit]
  by_cases hb : env.useBatch = true
  · have hq : env.batch = some "1" := (useBatch_iff env).mp hb
    cases hc : env.createBatchJob env.jobID env.containerName env.blobNamePrefix n <;>
      simp [hn1, hb, hq, hc, Call.isCreation, List.filter]
  · have hq : ¬ env.batch = some "1" := fun h => hb ((useBatch_iff env).mpr h)
    cases hc : env.createKubernetesJob env.jobID env.containerName env.blobNamePrefix n <;>
      simp [hn1, hb, hq, hc, Call.isCreation, List.filter]

/-- C6 on the `batch` values `"1"`, absent, `""`, `"0"`, `"true"` and `"01"`. -/
theorem createJobHandler_one_creation_witness :
    (createJobHandler (sampleCreateEnv (some "1") 3 none none)).filter Call.isCreation =
      [Call.createBatchJob "2024-05-abc" "jobs" "2024-05/abc" 3] ∧
    (createJobHandler (sampleCreateEnv none 3 none none)).filter Call.isCreation =
      [Call.createKubernetesJob "2024-05-abc" "jobs" "2024-05/abc" 3] ∧
    (createJobHandler (sampleCreateEnv (some "") 3 none none)).filter Call.isCreation =
      [Call.createKubernetesJob "2024-05-abc" "jobs" "2024-05/abc" 3] ∧
    (createJobHandler (sampleCreateEnv (some "0") 3 none none)).filter Call.isCreation =
      [Call.createKubernetesJob "2024-05-abc" "jobs" "2024-05/abc" 3] ∧
    (createJobHandler (sampleCreateEnv (some "true") 3 none none)).filter Call.isCreation =
      [Call.createKubernetesJob "2024-05-abc" "jobs" "2024-05/abc" 3] ∧
    (createJobHandler (sampleCreateEnv (some "01") 3 none none)).filter Call.isCreation =
      [Call.createKubernetesJob "2024-05-abc" "jobs" "2024-05/abc" 3] :=
  ⟨(createJobHandler_one_creation (sampleCreateEnv (some "1") 3 none none) 3 rfl
      (by decide)).2,
   (createJobHandler_one_creation (sampleCreateEnv none 3 none none) 3 rfl (by decide)).2,
   (createJobHandler_one_creation (sampleCreateEnv (some "") 3 none none) 3 rfl
      (by decide)).2,
   (createJobHandler_one_creation (sampleCreateEnv (some "0") 3 none none) 3 rfl
      (by decide)).2,
   (createJobHandler_one_creation (sampleCreateEnv (some "true") 3 none none) 3 rfl
      (by decide)).2,
   (createJobHandler_one_creation (sampleCreateEnv (some "01") 3 none none) 3 rfl
      (by decide)).2⟩

/-! ## C7: job identity -/

theorem digitChar_isDigit (d : Nat) (hd : d < 10) : (Nat.digitChar d).isDigit = true := by
  interval_cases d <;> rfl

theorem toDigitsCore_isDigit (fuel : Nat) : ∀ (n : Nat) (ds : List Char),
    (∀ c ∈ ds, c.isDigit = true) → ∀ c ∈ Nat.toDigitsCore 10 fuel n ds, c.isDigit = true := by
  induction fuel with
  | zero => intro n ds hds c hc; exact hds c (by simpa [Nat.toDigitsCore] using hc)
  | succ fuel ih =>
    intro n ds hds c hc
    have hcons : ∀ c ∈ Nat.digitChar (n % 10) :: ds, c.isDigit = true := by
      intro c hc
      rcases List.mem_cons.mp hc with rfl | hc
      · exact digitChar_isDigit _ (Nat.mod_lt _ (by decide))
      · exact hds c hc
    simp only [Nat.toDigitsCore] at hc
    split_ifs at hc
    · exact hcons c hc
    · exact ih _ _ hcons c hc

theorem zeroPad_spec (w : Nat) (ds : List Char) (hlen : ds.length ≤ w)
    (hds : ∀ c ∈ ds, c.isDigit = true) :
    (zeroPad w ds).length = w ∧ ∀ c ∈ zeroPad w ds, c.isDigit = true := by
  constructor
  · simp [zeroPad]; omega
  · intro c hc
    simp only [zeroPad, List.mem_append, List.mem_replicate] at hc
    rcases hc with ⟨_, rfl⟩ | hc
    · rfl
    · exact hds c hc

theorem appendInt_year (y : Int) (h0 : 0 ≤ y) (h1 : y ≤ 9999) :
    (appendInt y 4).length = 4 ∧ ∀ c ∈ appendInt y 4, c.isDigit = true := by
  have hneg : ¬ y < 0 := not_lt.mpr h0
  have hlt : y.natAbs < 10 ^ 4 := by omega
  simp only [appendInt, hneg, if_false, List.nil_append]
  exact zeroPad_spec 4 _
    (Nat.toDigitsCore_length 10 (by decide) _ _ 4 hlt (by decide))
    (toDigitsCore_isDigit _ _ [] (by simp))

theorem appendInt_month (m : Month) :
    (appendInt (m.num : Int) 2).length = 2 ∧
      ∀ c ∈ appendInt (m.num : Int) 2, c.isDigit = true := by
  cases m <;> decide


theorem list_length_four {α : Type} (l : List α) (h : l.length = 4) :
    ∃ a b c d, l = [a, b, c, d] := by
  match l, h with
  | [a, b, c, d], _ => exact ⟨a, b, c, d, rfl⟩

theorem list_length_two {α : Type} (l : List α) (h : l.length = 2) :
    ∃ a b, l = [a, b] := by
  match l, h with
  | [a, b], _ => exact ⟨a, b, rfl⟩

/-- The period is four digits, `-`, two digits. -/
theorem Format200601_shape (t : Time) (h0 : 0 ≤ t.year) (h1 : t.year ≤ 9999) :
    ∃ a b c d e f : Char, t.Format200601 = String.mk [a, b, c, d, '-', e, f] ∧
      a.isDigit = true ∧ b.isDigit = true ∧ c.isDigit = true ∧ d.isDigit = true ∧
      e.isDigit = true ∧ f.isDigit = true := by
  obtain ⟨hy, hyd⟩ := appendInt_year t.year h0 h1
  obtain ⟨hm, hmd⟩ := appendInt_month t.month
  obtain ⟨a, b, c, d, hyy⟩ := list_length_four _ hy
  obtain ⟨e, f, hmm⟩ := list_length_two _ hm
  refine ⟨a, b, c, d, e, f, ?_, ?_⟩
  · simp [Time.Format200601, hyy, hmm]
  · rw [hyy] at hyd
    rw [hmm] at hmd
    simp at hyd hmd
    exact ⟨hyd.1, hyd.2.1, hyd.2.2.1, hyd.2.2.2, hmd.1, hmd.2⟩

/-- C7: for every submission time with year in 0..9999 and every random
suffix, `jobID` is period ++ "-" ++ suffix and `blobNamePrefix` is
period ++ "/" ++ suffix for the same 7-character period `YYYY-MM` and the same
suffix; the two strings have the same length, agree at every index but 7,
hold `-` and `/` there, and the prefix is the jobID with index 7 replaced. -/
theorem jobID_blobNamePrefix_shape (env : CreateEnv)
    (h0 : 0 ≤ env.now.year) (h1 : env.now.year ≤ 9999) :
    env.jobID = env.now.Format200601 ++ "-" ++ env.randomString ∧
    env.blobNamePrefix = env.now.Format200601 ++ "/" ++ env.randomString ∧
    (createJobHandler env).head? =
      some (Call.createJobInputFiles env.containerName env.blobNamePrefix env.itemsPerJob) ∧
    env.now.Format200601.length = 7 ∧
    (∃ a b c d e f : Char, env.now.Format200601.data = [a, b, c, d, '-', e, f] ∧
      a.isDigit = true ∧ b.isDigit = true ∧ c.isDigit = true ∧ d.isDigit = true ∧
      e.isDigit = true ∧ f.isDigit = true) ∧
    env.jobID.length = env.blobNamePrefix.length ∧
    env.jobID.utf8ByteSize = env.blobNamePrefix.utf8ByteSize ∧
    (∀ i : Nat, i ≠ 7 → env.jobID.data[i]? = env.blobNamePrefix.data[i]?) ∧
    env.jobID.data[7]? = some '-' ∧
    env.blobNamePrefix.data[7]? = some '/' ∧
    env.blobNamePrefix.data = env.jobID.data.set 7 '/' := by
  obtain ⟨a, b, c, d, e, f, hp, hd⟩ := Format200601_shape env.now h0 h1
  have hj : env.jobID.data = [a, b, c, d, '-', e, f, '-'] ++ env.randomString.data := by
    simp [CreateEnv.jobID, hp, String.data_append]
  have hb : env.blobNamePrefix.data =
      [a, b, c, d, '-', e, f, '/'] ++ env.randomString.data := by
    simp [CreateEnv.blobNamePrefix, hp, String.data_append]
  refine ⟨rfl, rfl, ?_, ?_, ⟨a, b, c, d, e, f, by rw [hp], hd⟩, ?_, ?_, ?_, ?_, ?_, ?_⟩
  · rcases hs : env.createJobInputFiles env.containerName env.blobNamePrefix
      env.itemsPerJob with ⟨n, err⟩
    cases err with
    | none => rw [createJobHandler_split env n hs]; rfl
    | some e => rw [createJobHandler_split_error env n e hs]; rfl
  · show env.now.Format200601.data.length = 7
    rw [hp]
    rfl
  · show env.jobID.data.length = env.blobNamePrefix.data.length
    rw [hj, hb]
    simp
  · show String.utf8Len env.jobID.data = String.utf8Len env.blobNamePrefix.data
    have hc : Char.utf8Size '-' = Char.utf8Size '/' := by decide
    rw [hj, hb]
    simp [String.utf8Len_append, String.utf8Len_cons, hc]
  · intro i hi
    rw [hj, hb]
    rcases i with _|_|_|_|_|_|_|_|i <;> simp at hi ⊢
  · rw [hj]; simp
  · rw [hb]; simp
  · rw [hj, hb]; simp

/-- C7 for a submission in May 2024 with suffix `abc`. -/
theorem jobID_blobNamePrefix_shape_witness :
    (sampleCreateEnv none 3 none none).jobID = "2024-05-abc" ∧
    (sampleCreateEnv none 3 none none).blobNamePrefix = "2024-05/abc" ∧
    (sampleCreateEnv none 3 none none).blobNamePrefix.data =
      (sampleCreateEnv none 3 none none).jobID.data.set 7 '/' :=
  ⟨by decide, by decide,
   (jobID_blobNamePrefix_shape (sampleCreateEnv none 3 none none)
      (by decide) (by decide)).2.2.2.2.2.2.2.2.2.2⟩


/-! ## C8: a search without result -/

/-- The calls of `getJobHandler` in a request that finds a job. -/
theorem getJobHandler_found {Item : Type} (env : GetEnv Item) (jobID : String)
    (item : Item) (rest : List Item)
    (hid : env.id = some jobID) (hsched : env.createScheduler = none)
    (hsearch : env.SearchJobs jobID env.CreatedByLabelName env.CreatedByLabelValue
      = .ok (item :: rest)) :
    getJobHandler env =
      Call.createScheduler ::
      Call.SearchJobs jobID env.CreatedByLabelName env.CreatedByLabelValue ::
      Call.HeaderSet "Content-Type" "application/json" ::
      Call.Encode (env.NewJob item) ::
      match env.Encode (env.NewJob item) with
      | some err => [Call.responseWithError err]
      | none => [] := by
  simp only [getJobHandler, hid, hsched, hsearch]

/-- The calls of `getJobHandler` in a request whose search finds nothing. -/
theorem getJobHandler_empty {Item : Type} (env : GetEnv Item) (jobID : String)
    (hid : env.id = some jobID) (hsched : env.createScheduler = none)
    (hsearch : env.SearchJobs jobID env.CreatedByLabelName env.CreatedByLabelValue
      = .ok []) :
    getJobHandler env =
      [Call.createScheduler,
       Call.SearchJobs jobID env.CreatedByLabelName env.CreatedByLabelValue,
       Call.responseWithApplicationError StatusNotFound "Job not found"] := by
  simp only [getJobHandler, hid, hsched, hsearch]

/-- The calls of `getJobResultHandler` in a request whose search finds nothing. -/
theorem getJobResultHandler_empty {Item : Type} (env : GetEnv Item) (jobID : String)
    (hid : env.id = some jobID) (hsched : env.createScheduler = none)
    (hsearch : env.SearchJobs jobID env.CreatedByLabelName env.CreatedByLabelValue
      = .ok []) :
    getJobResultHandler env =
      [Call.createScheduler,
       Call.SearchJobs jobID env.CreatedByLabelName env.CreatedByLabelValue,
       Call.responseWithApplicationError StatusNotFound "Job not found"] := by
  simp only [getJobResultHandler, hid, hsched, hsearch]

/-- C8: in `getJobHandler` and `getJobResultHandler`, a search that succeeds
with zero items is answered with the application error 404 "Job not found"
(not with `responseWithError`), no status is encoded and `writeAzureBlobs` is
not called; a search with at least one item never produces "Job not found",
and the handlers behave as if the first item were the only one, the status
being `NewJob` of it. -/
theorem job_not_found {Item : Type} (env : GetEnv Item) (jobID : String)
    (items : List Item)
    (hid : env.id = some jobID) (hsched : env.createScheduler = none)
    (hsearch : env.SearchJobs jobID env.CreatedByLabelName env.CreatedByLabelValue
      = .ok items) :
    (items = [] →
      getJobHandler env =
        [Call.createScheduler,
         Call.SearchJobs jobID env.CreatedByLabelName env.CreatedByLabelValue,
         Call.responseWithApplicationError 404 "Job not found"] ∧
      getJobResultHandler env =
        [Call.createScheduler,
         Call.SearchJobs jobID env.CreatedByLabelName env.CreatedByLabelValue,
         Call.responseWithApplicationError 404 "Job not found"] ∧
      (∀ e, Call.responseWithError e ∉ getJobHandler env) ∧
      (∀ e, Call.responseWithError e ∉ getJobResultHandler env) ∧
      (∀ j, Call.Encode j ∉ getJobHandler env) ∧
      (∀ c p k, Call.writeAzureBlobs c p k ∉ getJobResultHandler env)) ∧
    (∀ item rest, items = item :: rest →
      Call.responseWithApplicationError 404 "Job not found" ∉ getJobHandler env ∧
      Call.responseWithApplicationError 404 "Job not found" ∉ getJobResultHandler env ∧
      (∀ j, Call.Encode j ∈ getJobHandler env ↔ j = env.NewJob item) ∧
      getJobHandler env =
        getJobHandler { env with SearchJobs := fun _ _ _ => .ok [item] } ∧
      getJobResultHandler env =
        getJobResultHandler { env with SearchJobs := fun _ _ _ => .ok [item] }) := by
  constructor
  · rintro rfl
    rw [getJobHandler_empty env jobID hid hsched hsearch,
      getJobResultHandler_empty env jobID hid hsched hsearch]
    simp [StatusNotFound]
  · rintro item rest rfl
    refine ⟨?_, ?_, ?_, ?_, ?_⟩
    · rw [getJobHandler_found env jobID item rest hid hsched hsearch]
      cases h : env.Encode (env.NewJob item) <;> simp
    · rw [getJobResultHandler_found env jobID item rest hid hsched hsearch]
      have hne := notYet_ne_notFound (fmtInt (env.NewJob item).Succeeded)
        (fmtInt (env.NewJob item).Completions)
      split_ifs
      · simp [hne.symm]
      · simp [StatusBadRequest]
      · cases env.writeAzureBlobs _ _ _ <;> simp
    · intro j
      rw [getJobHandler_found env jobID item rest hid hsched hsearch]
      cases h : env.Encode (env.NewJob item) <;> simp
    · rw [getJobHandler_found env jobID item rest hid hsched hsearch,
        getJobHandler_found { env with SearchJobs := fun _ _ _ => .ok [item] } jobID
          item [] hid hsched rfl]
    · rw [getJobResultHandler_found env jobID item rest hid hsched hsearch,
        getJobResultHandler_found { env with SearchJobs := fun _ _ _ => .ok [item] } jobID
          item [] hid hsched rfl]

/-- C8 on a search without result and on a search with two results. -/
theorem job_not_found_witness :
    getJobHandler (sampleGetEnv [] none none) =
      [Call.createScheduler, Call.SearchJobs "2024-05-abc" "createdBy" "aksscheduler",
       Call.responseWithApplicationError 404 "Job not found"] ∧
    getJobResultHandler (sampleGetEnv [] none none) =
      [Call.createScheduler, Call.SearchJobs "2024-05-abc" "createdBy" "aksscheduler",
       Call.responseWithApplicationError 404 "Job not found"] ∧
    getJobHandler (sampleGetEnv [sampleJob 1 3 3, sampleJob 3 3 3] none none) =
      getJobHandler (sampleGetEnv [sampleJob 1 3 3] none none) :=
  ⟨((job_not_found (sampleGetEnv [] none none) "2024-05-abc" [] rfl rfl rfl).1 rfl).1,
   ((job_not_found (sampleGetEnv [] none none) "2024-05-abc" [] rfl rfl rfl).1 rfl).2.1,
   ((job_not_found (sampleGetEnv [sampleJob 1 3 3, sampleJob 3 3 3] none none)
      "2024-05-abc" [sampleJob 1 3 3, sampleJob 3 3 3] rfl rfl rfl).2
      (sampleJob 1 3 3) [sampleJob 3 3 3] rfl).2.2.2.1⟩


/-! ## C9: a storage read error -/

/-- Once the status is fixed, no method call on the writer changes it. -/
theorem run_status_of_some (ops : List WriterOp) : ∀ (w : ResponseWriter) (code : Nat),
    w.status = some code → (w.run ops).status = some code := by
  induction ops with
  | nil => intro w code h; exact h
  | cons op ops ih =>
    intro w code h
    show ((w.step op).run ops).status = some code
    apply ih
    cases op <;> simp [ResponseWriter.step, h]

/-- In every request that passes the completion gate and the part check, the
client receives status 200, whatever `writeAzureBlobs` returns and whatever
the helpers write afterwards. -/
theorem status_after_accept {Item : Type} (env : GetEnv Item) (rs : Responders)
    (jobID : String) (item : Item) (rest : List Item)
    (hid : env.id = some jobID) (hsched : env.createScheduler = none)
    (hsearch : env.SearchJobs jobID env.CreatedByLabelName env.CreatedByLabelValue
      = .ok (item :: rest))
    (hdone : (env.NewJob item).Completions = (env.NewJob item).Succeeded)
    (hpart : requestedPart env.part ≤ (env.NewJob item).Parts) :
    (clientResponse rs (getJobResultHandler env)).status = some 200 := by
  have hp : ¬ requestedPart env.part > (env.NewJob item).Parts := not_lt.mpr hpart
  rw [getJobResultHandler_found env jobID item rest hid hsched hsearch]
  simp only [hdone, ne_eq, not_true_eq_false, if_false, hp, clientResponse,
    List.flatMap_cons, Responders.ops, List.nil_append, List.singleton_append,
    ResponseWriter.run, List.foldl_cons]
  exact run_status_of_some _ _ _ rfl

/-- C9: evaluation of the handler on a completed job with 3 parts, part 0,
when `writeAzureBlobs` returns an error: whatever `responseWithError` and
`writeAzureBlobs` write, the status the client receives is 200, and the error
is handed to `responseWithError` only after `WriteHeader(200)`. -/
theorem getJobResultHandler_read_error_status (rs : Responders) (err : GoError) :
    getJobResultHandler (sampleGetEnv [sampleJob 3 3 3] (some "0") (some err)) =
      [Call.createScheduler, Call.SearchJobs "2024-05-abc" "createdBy" "aksscheduler",
       Call.WriteHeader 200, Call.HeaderAdd "Content-Type" "application/json",
       Call.writeAzureBlobs "jobs" "2024-05/abc" 0, Call.responseWithError err] ∧
    (clientResponse rs
      (getJobResultHandler (sampleGetEnv [sampleJob 3 3 3] (some "0") (some err)))).status
      = some 200 :=
  ⟨rfl, status_after_accept _ rs "2024-05-abc" (sampleJob 3 3 3) [] rfl rfl rfl rfl
    (show requestedPart (some "0") ≤ (3 : Int) by decide)⟩


/-! ## C10: the `part` query parameter -/

/-- The handler reads `part` only through `requestedPart`. -/
theorem getJobResultHandler_congr_part {Item : Type} (env : GetEnv Item)
    (p q : Option String) (h : requestedPart p = requestedPart q) :
    getJobResultHandler { env with part := p } =
      getJobResultHandler { env with part := q } := by
  simp only [getJobResultHandler, h]

/-- C10: the requested part is 0 when the `part` parameter is absent, empty or
not accepted by `Atoi` (a syntax or a range error), and is the parsed integer
otherwise, negative values included.  A malformed value is handled exactly
as an absent one: on a completed job with `0 <= Parts` the storage reader is
called with part 0 and no application error is produced. -/
theorem requestedPart_spec :
    requestedPart none = 0 ∧
    requestedPart (some "") = 0 ∧
    (∀ s, Atoi s = none → requestedPart (some s) = 0) ∧
    (∀ s n, Atoi s = some n → requestedPart (some s) = n) ∧
    (Atoi "abc" = none ∧ Atoi "1.5" = none ∧ Atoi "9223372036854775808" = none ∧
      Atoi "-2" = some (-2) ∧ Atoi "9223372036854775807" = some 9223372036854775807) ∧
    (∀ (Item : Type) (env : GetEnv Item) (s : String), Atoi s = none →
      getJobResultHandler { env with part := some s } =
        getJobResultHandler { env with part := none }) ∧
    (∀ (Item : Type) (env : GetEnv Item) (jobID s : String) (item : Item)
      (rest : List Item),
      env.id = some jobID → env.createScheduler = none →
      env.SearchJobs jobID env.CreatedByLabelName env.CreatedByLabelValue
        = .ok (item :: rest) →
      (env.NewJob item).Completions = (env.NewJob item).Succeeded →
      0 ≤ (env.NewJob item).Parts →
      env.part = some s → Atoi s = none →
      (∀ code message,
        Call.responseWithApplicationError code message ∉ getJobResultHandler env) ∧
      Call.writeAzureBlobs (env.NewJob item).StorageContainer
        (env.NewJob item).StorageBlobPrefix 0 ∈ getJobResultHandler env) := by
  have hnone : ∀ s, Atoi s = none → requestedPart (some s) = 0 := by
    intro s hs
    simp only [requestedPart, queryGet, Option.getD_some, hs]
    split_ifs <;> rfl
  refine ⟨rfl, rfl, hnone, ?_, ⟨by decide, by decide, by decide, by decide, by decide⟩,
    ?_, ?_⟩
  · intro s n hs
    have hlen : s.length > 0 := by
      rcases s with ⟨cs⟩
      cases cs with
      | nil =>
        have hempty : Atoi ⟨[]⟩ = none := by decide
        rw [hempty] at hs
        exact absurd hs (by simp)
      | cons c cs => simp [String.length]
    simp only [requestedPart, queryGet, Option.getD_some, hs, hlen, if_true]
  · intro Item env s hs
    exact getJobResultHandler_congr_part env _ _ (hnone s hs)
  · intro Item env jobID s item rest hid hsched hsearch hdone hparts hpart hs
    have h0 : requestedPart env.part = 0 := by rw [hpart]; exact hnone s hs
    have hp : ¬ (0 : Int) > (env.NewJob item).Parts := not_lt.mpr hparts
    rw [getJobResultHandler_found env jobID item rest hid hsched hsearch]
    simp only [hdone, ne_eq, not_true_eq_false, if_false, h0, hp]
    constructor
    · intro code message
      cases h : env.writeAzureBlobs (env.NewJob item).StorageContainer
        (env.NewJob item).StorageBlobPrefix 0 <;> simp
    · simp

/-- C10 on a completed job with 3 parts and the value `abc`. -/
theorem requestedPart_spec_witness :
    Atoi "abc" = none ∧ requestedPart (some "abc") = 0 ∧
    Call.writeAzureBlobs "jobs" "2024-05/abc" 0 ∈
      getJobResultHandler (sampleGetEnv [sampleJob 3 3 3] (some "abc") none) :=
  ⟨by decide, requestedPart_spec.2.2.1 "abc" (by decide),
   (requestedPart_spec.2.2.2.2.2.2 Job (sampleGetEnv [sampleJob 3 3 3] (some "abc") none)
      "2024-05-abc" "abc" (sampleJob 3 3 3) [] rfl rfl rfl rfl (by decide) rfl
      (by decide)).2⟩

end schedulerapi
